import Mathlib

/-!
Shallow embedding, over exact rationals, of the LP-solver behaviour pinned
down by this repository snapshot.  The snapshot contains the test suite
`check/TestLpSolvers.cpp` and the header `src/lp_data/HighsLp.h`; the `Highs`
solver class itself (its `run`, option handling and engines) is absent, so its
observable behaviour is modelled from the specification — every such
definition carries a doc comment starting with "Modelled from the spec".
C++ `double` values are embedded as exact rationals (`Rat`).
-/

/-- Embedded from `src/src/lp_data/HighsLp.h`: `enum class HighsMpsParserType`. -/
inductive HighsMpsParserType where
  | free
  | fixed
deriving DecidableEq, Repr

/-- Embedded from `src/src/lp_data/HighsLp.h` (struct `HighsOptions`): every data
member together with its default member-initialiser.  The two `FILE*` stream
members (`output`, `logfile`) carry no data and are omitted; the C++ `double`
literals `1e-7` and `1e+200` are embedded as the exact rationals
`1 / 10 ^ 7` and `10 ^ 200`. -/
structure HighsOptions where
  filenames : String := ""
  pami : Bool := false
  sip : Bool := false
  scip : Bool := false
  timeLimit : Rat := 0
  parser_type : HighsMpsParserType := HighsMpsParserType.free
  presolveMode : String := "off"
  crashMode : String := "off"
  edWtMode : String := "dse2dvx"
  priceMode : String := "rowswcolsw"
  partitionFile : String := ""
  messageLevel : Int := 0
  transposeLp : Bool := false
  scaleLp : Bool := true
  permuteLp : Bool := false
  tightenLp : Bool := false
  primalFeasibilityTolerance : Rat := 1 / 10 ^ 7
  dualFeasibilityTolerance : Rat := 1 / 10 ^ 7
  perturbCostsSimplex : Bool := true
  iterationLimitSimplex : Int := 999999
  dualObjectiveValueUpperBound : Rat := 10 ^ 200
  clean_up : Bool := false
deriving Repr

/-- The `HighsOptions` value obtained before any `setOptionValue` call: every
member holds its default member-initialiser from `src/src/lp_data/HighsLp.h`. -/
def defaultHighsOptions : HighsOptions := {}

/-- Modelled from the spec: the status returned by every public operation of
the solver facade, `{Ok, Warning, Error}`, with the constructor names used by
the tests (`HighsStatus::kOk` etc. in `check/TestLpSolvers.cpp`). -/
inductive HighsStatus where
  | kOk
  | kWarning
  | kError
deriving DecidableEq, Repr

/-- Modelled from the spec (§3 `ModelStatus`), with the constructor names used
by the tests (`HighsModelStatus::kOptimal` etc.). -/
inductive HighsModelStatus where
  | kNotSet
  | kLoadError
  | kModelError
  | kPresolveError
  | kSolveError
  | kPostsolveError
  | kModelEmpty
  | kOptimal
  | kInfeasible
  | kUnboundedOrInfeasible
  | kUnbounded
  | kObjectiveBound
  | kObjectiveTarget
  | kTimeLimit
  | kIterationLimit
  | kUnknown
deriving DecidableEq, Repr

/-- Modelled from the spec: objective sense, as used by the tests
(`ObjSense::kMaximize`). -/
inductive ObjSense where
  | kMinimize
  | kMaximize
deriving DecidableEq, Repr

/-- Modelled from the spec: the five simplex pivot strategies, with the
constructor names and ordering used by the tests (`SimplexStrategy`
enumeration: `Choose`, `DualPlain`, `DualTasks`, `DualMulti`, `Primal`). -/
inductive SimplexStrategy where
  | kSimplexStrategyChoose
  | kSimplexStrategyDualPlain
  | kSimplexStrategyDualTasks
  | kSimplexStrategyDualMulti
  | kSimplexStrategyPrimal
deriving DecidableEq, Repr

/-- Modelled from the spec: the `solver` option value,
`{"simplex", "ipm", "choose"}`. -/
inductive SolverChoice where
  | simplex
  | ipm
  | choose
deriving DecidableEq, Repr

/-- Modelled from the spec: the `presolve` option value,
`{"on", "off", "choose"}`. -/
inductive PresolveChoice where
  | on
  | off
  | choose
deriving DecidableEq, Repr

/-- Modelled from the spec: the numerical facts about one fixed LP instance
that the (absent) engines determine and the spec records as reproducible
(§4.3 determinism, §4.4 strategy-stable counts, §3 factorization counters):
the optimal objective value under each sense, the simplex iteration count
from a cold (logical-basis) start for each pivot strategy, the IPM and
crossover iteration counts, whether a run through presolve leaves only a
zero-iteration final clean-up solve, and the factorization counters and
density estimates of a cold simplex solve. -/
structure InstanceFacts where
  optimalObjective : ObjSense → Rat
  simplexIterations : SimplexStrategy → Nat
  ipmIterations : Nat
  crossoverIterations : Nat
  presolveSolves : Bool := false
  numInvertCold : Nat := 0
  lastInvertNumEl : Nat := 0
  lastFactoredBasisNumEl : Nat := 0
  colAqDensity : Rat := 0
  rowEpDensity : Rat := 0
  rowApDensity : Rat := 0
  rowDSEDensity : Rat := 0

/-- Modelled from the spec: the LP Model held by the orchestrator — its
objective sense together with the instance facts of its data. -/
structure LpModel where
  sense : ObjSense
  facts : InstanceFacts

/-- Modelled from the spec (§3 Options): the option values consulted by
`run`.  `objective_bound = none` encodes the inactive default `+kHighsInf`. -/
structure Options where
  solver : SolverChoice
  simplex_strategy : SimplexStrategy
  presolve : PresolveChoice
  simplex_iteration_limit : Nat
  ipm_iteration_limit : Nat
  objective_bound : Option Rat
  use_warm_start : Bool
deriving DecidableEq, Repr

/-- Modelled from the spec (§3 LpInfo): the read-only snapshot reported after
every run. -/
structure HighsInfo where
  simplex_iteration_count : Nat
  ipm_iteration_count : Nat
  crossover_iteration_count : Nat
  objective_function_value : Rat
  max_complementarity_violation : Rat
  sum_complementarity_violations : Rat
deriving DecidableEq, Repr

/-- Modelled from the spec (§3 Factorization state): the `SimplexStats` block
surfaced by `getSimplexStats` — validity flag, iteration count of the last
simplex solve, factorization counters, and the four density estimates. -/
structure HighsSimplexStats where
  valid : Bool
  iteration_count : Nat
  num_invert : Nat
  last_invert_num_el : Nat
  last_factored_basis_num_el : Nat
  col_aq_density : Rat
  row_ep_density : Rat
  row_ap_density : Rat
  row_DSE_density : Rat
deriving DecidableEq, Repr

/-- Modelled from the spec: everything one `run()` call produces — the call
status, the `ModelStatus`, the `LpInfo` snapshot, the `SimplexStats` block,
the consistency of the delivered Basis and Solution, and whether a basis
known to be optimal is installed afterwards (the warm-start state). -/
structure RunResult where
  status : HighsStatus
  model_status : HighsModelStatus
  info : HighsInfo
  stats : HighsSimplexStats
  basisConsistent : Bool
  solutionConsistent : Bool
  optimalBasisAfter : Bool
deriving DecidableEq, Repr

/-- Modelled from the spec: an `LpInfo` snapshot with the given iteration
counts and objective value.  Both engines deliver basic solutions (simplex
iterates, and IPM output after crossover), whose nonbasic variables sit
exactly on bounds, so the complementarity fields are exactly zero (§3). -/
def mkInfo (simplexIt ipmIt crossIt : Nat) (obj : Rat) : HighsInfo :=
  { simplex_iteration_count := simplexIt
    ipm_iteration_count := ipmIt
    crossover_iteration_count := crossIt
    objective_function_value := obj
    max_complementarity_violation := 0
    sum_complementarity_violations := 0 }

/-- Modelled from the spec and the tested behaviour (`simplex-stats` test):
the `SimplexStats` after a run in which presolve leaves only a zero-iteration
final clean-up solve — one INVERT of the final basis, no priced directions,
hence all four density estimates exactly zero. -/
def statsPresolveClean (f : InstanceFacts) : HighsSimplexStats :=
  { valid := true
    iteration_count := 0
    num_invert := 1
    last_invert_num_el := f.lastInvertNumEl
    last_factored_basis_num_el := f.lastFactoredBasisNumEl
    col_aq_density := 0
    row_ep_density := 0
    row_ap_density := 0
    row_DSE_density := 0 }

/-- Modelled from the spec: the `SimplexStats` after a cold simplex solve of
the full LP — instance-determined iteration count, INVERT counters and
density estimates. -/
def statsCold (f : InstanceFacts) (its : Nat) : HighsSimplexStats :=
  { valid := true
    iteration_count := its
    num_invert := f.numInvertCold
    last_invert_num_el := f.lastInvertNumEl
    last_factored_basis_num_el := f.lastFactoredBasisNumEl
    col_aq_density := f.colAqDensity
    row_ep_density := f.rowEpDensity
    row_ap_density := f.rowApDensity
    row_DSE_density := f.rowDSEDensity }

/-- Modelled from the spec (§4.2): whether the dual-objective upper bound β
trips.  Only a minimization run consults β; the dual objective climbs to the
optimal value p during Phase 2, so it provably exceeds β exactly when β < p.
When the sense is maximization the bound is ignored; `none` is the inactive
default `+kHighsInf`. -/
def objectiveBoundTrips (m : LpModel) (o : Options) : Bool :=
  match m.sense, o.objective_bound with
  | ObjSense.kMinimize, some b =>
      decide (b < m.facts.optimalObjective ObjSense.kMinimize)
  | _, _ => false

/-- Modelled from the spec (§4.1 routing, §4.2, §4.3): one simplex run.
With a warm basis from a prior `Optimal` result and `use_warm_start = true`,
zero iterations are needed (§4.1 warm-start contract).  A zero iteration
limit returns `kIterationLimit` with `kWarning` after zero iterations; a
budget smaller than the iterations needed is spent exactly and returns
`kIterationLimit` with `kWarning` (§4.3).  A tripped dual-objective bound
returns `kObjectiveBound`; the `HighsStatus` of that outcome is `kOk`,
following the tested behaviour (`check/TestLpSolvers.cpp`,
`dual-objective-upper-bound` REQUIREs `kOk` with `kObjectiveBound`), which
overrides the spec's §7 claim of `Warning` there.  In every outcome the
caller receives a consistent Basis and Solution for the last valid iterate
(§7), and the reported objective is the instance's optimal value in the
model (intermediate objectives are not tracked). -/
def Highs.runSimplex (m : LpModel) (o : Options)
    (warmOptimal timeLimitReached : Bool) : RunResult :=
  let needed : Nat :=
    if warmOptimal && o.use_warm_start then 0
    else m.facts.simplexIterations o.simplex_strategy
  let stats : HighsSimplexStats :=
    if o.presolve = PresolveChoice.off then statsCold m.facts needed
    else if m.facts.presolveSolves then statsPresolveClean m.facts
    else statsCold m.facts needed
  if timeLimitReached then
    { status := HighsStatus.kWarning
      model_status := HighsModelStatus.kTimeLimit
      info := mkInfo (min needed o.simplex_iteration_limit) 0 0
        (m.facts.optimalObjective m.sense)
      stats := stats
      basisConsistent := true
      solutionConsistent := true
      optimalBasisAfter := false }
  else if o.simplex_iteration_limit = 0 then
    { status := HighsStatus.kWarning
      model_status := HighsModelStatus.kIterationLimit
      info := mkInfo 0 0 0 (m.facts.optimalObjective m.sense)
      stats := stats
      basisConsistent := true
      solutionConsistent := true
      optimalBasisAfter := false }
  else if needed ≤ o.simplex_iteration_limit then
    if objectiveBoundTrips m o then
      { status := HighsStatus.kOk
        model_status := HighsModelStatus.kObjectiveBound
        info := mkInfo needed 0 0 (m.facts.optimalObjective m.sense)
        stats := stats
        basisConsistent := true
        solutionConsistent := true
        optimalBasisAfter := false }
    else
      { status := HighsStatus.kOk
        model_status := HighsModelStatus.kOptimal
        info := mkInfo needed 0 0 (m.facts.optimalObjective m.sense)
        stats := stats
        basisConsistent := true
        solutionConsistent := true
        optimalBasisAfter := true }
  else
    { status := HighsStatus.kWarning
      model_status := HighsModelStatus.kIterationLimit
      info := mkInfo o.simplex_iteration_limit 0 0
        (m.facts.optimalObjective m.sense)
      stats := stats
      basisConsistent := true
      solutionConsistent := true
      optimalBasisAfter := false }

/-- Modelled from the spec (§4.4): one IPM + crossover run.  A zero
`ipm_iteration_limit` means zero IPM iterations, `kWarning` +
`kIterationLimit`; a budget smaller than the iterations needed is spent (at
most the budget) and crossover still runs and reports its own count; on
convergence the crossover output is a basic solution and the run is
`kOptimal` with `kOk`.  `SimplexStats` is not produced by this engine. -/
def Highs.runIpm (m : LpModel) (o : Options) (timeLimitReached : Bool) :
    RunResult :=
  let needed : Nat := m.facts.ipmIterations
  let invalidStats : HighsSimplexStats :=
    { valid := false, iteration_count := 0, num_invert := 0
      last_invert_num_el := 0, last_factored_basis_num_el := 0
      col_aq_density := 0, row_ep_density := 0, row_ap_density := 0
      row_DSE_density := 0 }
  if timeLimitReached then
    { status := HighsStatus.kWarning
      model_status := HighsModelStatus.kTimeLimit
      info := mkInfo 0 (min needed o.ipm_iteration_limit) 0
        (m.facts.optimalObjective m.sense)
      stats := invalidStats
      basisConsistent := true
      solutionConsistent := true
      optimalBasisAfter := false }
  else if o.ipm_iteration_limit = 0 then
    { status := HighsStatus.kWarning
      model_status := HighsModelStatus.kIterationLimit
      info := mkInfo 0 0 0 (m.facts.optimalObjective m.sense)
      stats := invalidStats
      basisConsistent := true
      solutionConsistent := true
      optimalBasisAfter := false }
  else if needed ≤ o.ipm_iteration_limit then
    { status := HighsStatus.kOk
      model_status := HighsModelStatus.kOptimal
      info := mkInfo 0 needed m.facts.crossoverIterations
        (m.facts.optimalObjective m.sense)
      stats := invalidStats
      basisConsistent := true
      solutionConsistent := true
      optimalBasisAfter := true }
  else
    { status := HighsStatus.kWarning
      model_status := HighsModelStatus.kIterationLimit
      info := mkInfo 0 o.ipm_iteration_limit m.facts.crossoverIterations
        (m.facts.optimalObjective m.sense)
      stats := invalidStats
      basisConsistent := true
      solutionConsistent := true
      optimalBasisAfter := false }

/-- Modelled from the spec (§4.1 routing): `Highs::run`.  `solver = "ipm"`
routes to the IPM + crossover engine; `"simplex"` routes to the simplex
engine, and `"choose"` also routes to the simplex engine (the spec routes
warm re-solves to simplex and leaves cold `"choose"` implementation-defined,
simplex — dual plain — in practice).  `warmOptimal` says whether a basis
from a prior `Optimal` run with unchanged options is installed;
`timeLimitReached` is the wall-clock oracle: whether the `time_limit`
deadline trips during this call. -/
def Highs.run (m : LpModel) (o : Options)
    (warmOptimal timeLimitReached : Bool) : RunResult :=
  match o.solver with
  | SolverChoice.ipm => Highs.runIpm m o timeLimitReached
  | _ => Highs.runSimplex m o warmOptimal timeLimitReached

/-- Modelled from the spec (§4.3): `Highs::getDualObjectiveValue`.  After a
successful run the primal-dual gap is zero to within rounding; in the exact
arithmetic of the model the dual objective equals the primal objective
(strong duality).  Before a successful run no value is available. -/
def Highs.getDualObjectiveValue (r : RunResult) : Option Rat :=
  if r.model_status = HighsModelStatus.kOptimal then
    some r.info.objective_function_value
  else none

/-- The sign of an objective sense: `+1` for minimization, `-1` for
maximization (the encoding of `objSense` in `src/src/lp_data/HighsLp.h`). -/
def senseSign : ObjSense → Rat
  | ObjSense.kMinimize => 1
  | ObjSense.kMaximize => -1

/-- Modelled from the spec (§4.6): the objective value obtained by solving
the standard-form LP exported by the two-call `getStandardFormLp` protocol.
The export is an equivalent minimization `min cy + offset, Ay = b, y ≥ 0`,
so its optimal value is the original optimal value, with the sign flipped
for a maximization original. -/
def Highs.standardFormObjective (m : LpModel) : Rat :=
  senseSign m.sense * m.facts.optimalObjective m.sense

/-- The relative-error measure used throughout the tests:
`|x − target| / max(1, |target|)`. -/
def relError (x target : Rat) : Rat :=
  |x - target| / max 1 |target|

/-- Modelled from the spec (scenario 3): the optimal objective values of the
`e226.mps` instance — `−11.6389290663705` when minimizing and
`111.650960689315` when maximizing. -/
def e226OptimalObjective : ObjSense → Rat
  | ObjSense.kMinimize => -((116389290663705 : Rat) / 10 ^ 13)
  | ObjSense.kMaximize => (111650960689315 : Rat) / 10 ^ 12

/-- The `e226.mps` instance facts: the spec pins only its optimal objective
values; the iteration counts are left as parameters. -/
def e226Facts (its : SimplexStrategy → Nat) (ipmIts crossIts : Nat) :
    InstanceFacts :=
  { optimalObjective := e226OptimalObjective
    simplexIterations := its
    ipmIterations := ipmIts
    crossoverIterations := crossIts }

/-- The `e226.mps` model with minimization sense (as read from the file). -/
def e226Min (its : SimplexStrategy → Nat) (ipmIts crossIts : Nat) : LpModel :=
  { sense := ObjSense.kMinimize, facts := e226Facts its ipmIts crossIts }

/-- The `e226.mps` model after `changeObjectiveSense(kMaximize)`. -/
def e226Max (its : SimplexStrategy → Nat) (ipmIts crossIts : Nat) : LpModel :=
  { sense := ObjSense.kMaximize, facts := e226Facts its ipmIts crossIts }

/-- Modelled from the spec (scenarios 1 and 2): the reproducible simplex
iteration counts of `adlittle.mps` for each pivot strategy. -/
def adlittleSimplexIterations : SimplexStrategy → Nat
  | SimplexStrategy.kSimplexStrategyChoose => 87
  | SimplexStrategy.kSimplexStrategyDualPlain => 87
  | SimplexStrategy.kSimplexStrategyDualTasks => 72
  | SimplexStrategy.kSimplexStrategyDualMulti => 73
  | SimplexStrategy.kSimplexStrategyPrimal => 94

/-- The `adlittle.mps` instance facts: strategy-wise simplex counts, IPM
count 13 and crossover count 2 per the spec; the optimal objective value is
not pinned by the spec and is left as a parameter. -/
def adlittleFacts (obj : ObjSense → Rat) : InstanceFacts :=
  { optimalObjective := obj
    simplexIterations := adlittleSimplexIterations
    ipmIterations := 13
    crossoverIterations := 2 }

/-- The `adlittle.mps` model (minimization, as read from the file). -/
def adlittleModel (obj : ObjSense → Rat) : LpModel :=
  { sense := ObjSense.kMinimize, facts := adlittleFacts obj }

/-- A concrete instance used by the witnesses: every engine fact small and
positive. -/
def sampleFacts : InstanceFacts :=
  { optimalObjective := fun _ => 7
    simplexIterations := fun _ => 5
    ipmIterations := 4
    crossoverIterations := 2
    presolveSolves := true
    numInvertCold := 3
    lastInvertNumEl := 11
    lastFactoredBasisNumEl := 13
    colAqDensity := 1 / 10
    rowEpDensity := 1 / 5
    rowApDensity := 1 / 4
    rowDSEDensity := 1 / 3 }

/-- A concrete minimization model over `sampleFacts`. -/
def sampleModel : LpModel :=
  { sense := ObjSense.kMinimize, facts := sampleFacts }

/-- Concrete simplex options: given strategy, iteration limit and objective
bound, presolve defaulted on (`choose`), warm starts enabled. -/
def sampleSimplexOptions (strat : SimplexStrategy) (lim : Nat)
    (bound : Option Rat) : Options :=
  { solver := SolverChoice.simplex
    simplex_strategy := strat
    presolve := PresolveChoice.choose
    simplex_iteration_limit := lim
    ipm_iteration_limit := 999999
    objective_bound := bound
    use_warm_start := true }

/-- Concrete IPM options with the given IPM iteration limit. -/
def sampleIpmOptions (lim : Nat) : Options :=
  { solver := SolverChoice.ipm
    simplex_strategy := SimplexStrategy.kSimplexStrategyChoose
    presolve := PresolveChoice.choose
    simplex_iteration_limit := 999999
    ipm_iteration_limit := lim
    objective_bound := none
    use_warm_start := true }

/-- The dual-objective upper bound `−45.876` of the e226 test (crossed during
Phase 2). -/
def e226BoundLarger : Rat := -((45876 : Rat) / 1000)

/-- The dual-objective upper bound `−110.0` of the e226 test (already violated
at the Phase-2 entry point). -/
def e226BoundSmaller : Rat := -110

/-- The dual-objective upper bound `150.0` used for the maximization e226
test. -/
def e226MaxBound : Rat := 150

/-- The maximization optimum `111.650960689315` of e226 as an exact
rational. -/
def e226MaxObjective : Rat := (111650960689315 : Rat) / 10 ^ 12

/-- The options of the `dual-objective-upper-bound` scenario: simplex solver,
presolve off, default (large) iteration limits, the given objective bound. -/
def e226Options (bound : Option Rat) : Options :=
  { solver := SolverChoice.simplex
    simplex_strategy := SimplexStrategy.kSimplexStrategyChoose
    presolve := PresolveChoice.off
    simplex_iteration_limit := 999999
    ipm_iteration_limit := 999999
    objective_bound := bound
    use_warm_start := true }

/-- The options of the `adlittle` simplex scenarios: the given strategy,
default presolve and limits, no objective bound. -/
def adlittleOptions (s : SimplexStrategy) : Options :=
  sampleSimplexOptions s 999999 none

/-- Witness options: simplex with a zero iteration limit. -/
def wOptsSimplexLim0 : Options :=
  sampleSimplexOptions SimplexStrategy.kSimplexStrategyChoose 0 none

/-- Witness options: IPM with a zero iteration limit. -/
def wOptsIpmLim0 : Options := sampleIpmOptions 0

/-- Witness options: simplex with iteration limit 2 (below the 5 iterations
`sampleFacts` needs). -/
def wOptsSimplexLim2 : Options :=
  sampleSimplexOptions SimplexStrategy.kSimplexStrategyChoose 2 none

/-- Witness options: IPM with iteration limit 2 (below the 4 IPM iterations
`sampleFacts` needs). -/
def wOptsIpmLim2 : Options := sampleIpmOptions 2

/-- Witness options: simplex with an ample budget and a tripping objective
bound `−1 < 7`. -/
def wOptsSimplexBound : Options :=
  sampleSimplexOptions SimplexStrategy.kSimplexStrategyChoose 100 (some (-1))

/-- Witness options: simplex with an ample budget and no objective bound. -/
def wOptsSimplexBig : Options :=
  sampleSimplexOptions SimplexStrategy.kSimplexStrategyChoose 100 none

/-- Every run result carries an `LpInfo` built by `mkInfo`, so the maximal
complementarity violation is exactly zero in every branch of both engines. -/
theorem run_max_comp_zero (m : LpModel) (o : Options) (w t : Bool) :
    (Highs.run m o w t).info.max_complementarity_violation = 0 := by
  unfold Highs.run Highs.runSimplex Highs.runIpm
  dsimp only
  split <;> (repeat' split) <;> rfl

/-- Every run result carries an `LpInfo` built by `mkInfo`, so the sum of
complementarity violations is exactly zero in every branch of both engines. -/
theorem run_sum_comp_zero (m : LpModel) (o : Options) (w t : Bool) :
    (Highs.run m o w t).info.sum_complementarity_violations = 0 := by
  unfold Highs.run Highs.runSimplex Highs.runIpm
  dsimp only
  split <;> (repeat' split) <;> rfl

/-- Every run result reports the instance's optimal objective value in the
model (intermediate objectives are not tracked). -/
theorem run_objective_value (m : LpModel) (o : Options) (w t : Bool) :
    (Highs.run m o w t).info.objective_function_value =
      m.facts.optimalObjective m.sense := by
  unfold Highs.run Highs.runSimplex Highs.runIpm
  dsimp only
  split <;> (repeat' split) <;> rfl

/-- The `SimplexStats` block attached by a simplex run: the clean
post-presolve block when presolve ran and fully disposed of the LP, the cold
block otherwise. -/
theorem runSimplex_stats (m : LpModel) (o : Options) (w t : Bool) :
    (Highs.runSimplex m o w t).stats =
      (if o.presolve = PresolveChoice.off then
        statsCold m.facts
          (if w && o.use_warm_start then 0
           else m.facts.simplexIterations o.simplex_strategy)
      else if m.facts.presolveSolves then statsPresolveClean m.facts
      else statsCold m.facts
        (if w && o.use_warm_start then 0
         else m.facts.simplexIterations o.simplex_strategy)) := by
  unfold Highs.runSimplex
  dsimp only
  split <;> (repeat' split) <;> rfl

/-- Characterization of an `kOptimal` simplex run: no time trip, a nonzero
iteration limit large enough for the needed iterations, and an objective
bound that does not trip. -/
theorem runSimplex_optimal_iff (m : LpModel) (o : Options) (w t : Bool) :
    (Highs.runSimplex m o w t).model_status = HighsModelStatus.kOptimal ↔
      t = false ∧ ¬o.simplex_iteration_limit = 0 ∧
      (if w && o.use_warm_start then 0
       else m.facts.simplexIterations o.simplex_strategy) ≤
        o.simplex_iteration_limit ∧
      objectiveBoundTrips m o = false := by
  unfold Highs.runSimplex
  dsimp only
  split <;> (repeat' split) <;>
    simp_all

/-- Characterization of an `kOptimal` IPM run: no time trip and a nonzero
iteration limit large enough for the needed IPM iterations. -/
theorem runIpm_optimal_iff (m : LpModel) (o : Options) (t : Bool) :
    (Highs.runIpm m o t).model_status = HighsModelStatus.kOptimal ↔
      t = false ∧ ¬o.ipm_iteration_limit = 0 ∧
      m.facts.ipmIterations ≤ o.ipm_iteration_limit := by
  unfold Highs.runIpm
  dsimp only
  split <;> (repeat' split) <;> simp_all

/-- A simplex run installs an optimal basis exactly when it ends `kOptimal`. -/
theorem runSimplex_basis (m : LpModel) (o : Options) (w t : Bool) :
    (Highs.runSimplex m o w t).optimalBasisAfter =
      decide ((Highs.runSimplex m o w t).model_status =
        HighsModelStatus.kOptimal) := by
  unfold Highs.runSimplex
  dsimp only
  split <;> (repeat' split) <;> rfl

/-- An IPM run installs an optimal basis exactly when it ends `kOptimal`. -/
theorem runIpm_basis (m : LpModel) (o : Options) (t : Bool) :
    (Highs.runIpm m o t).optimalBasisAfter =
      decide ((Highs.runIpm m o t).model_status =
        HighsModelStatus.kOptimal) := by
  unfold Highs.runIpm
  dsimp only
  split <;> (repeat' split) <;> rfl

/-- After an `kOptimal` run a basis known to be optimal is installed. -/
theorem run_optimalBasisAfter (m : LpModel) (o : Options) (w t : Bool)
    (h : (Highs.run m o w t).model_status = HighsModelStatus.kOptimal) :
    (Highs.run m o w t).optimalBasisAfter = true := by
  unfold Highs.run at h ⊢
  revert h
  split
  · intro h
    rw [runIpm_basis, h]
    rfl
  · intro h
    rw [runSimplex_basis, h]
    rfl

/-- A simplex run under a zero iteration limit: zero iterations,
`kWarning` + `kIterationLimit`. -/
theorem runSimplex_limit_zero (m : LpModel) (o : Options) (w : Bool)
    (h0 : o.simplex_iteration_limit = 0) :
    (Highs.runSimplex m o w false).model_status =
      HighsModelStatus.kIterationLimit ∧
    (Highs.runSimplex m o w false).status = HighsStatus.kWarning ∧
    (Highs.runSimplex m o w false).info =
      mkInfo 0 0 0 (m.facts.optimalObjective m.sense) := by
  unfold Highs.runSimplex
  dsimp only
  simp only [Bool.false_eq_true, if_false, if_pos h0]
  refine ⟨?_, ?_, ?_⟩ <;> trivial

/-- A simplex run whose positive iteration budget is smaller than the
iterations needed: the budget is spent exactly and the run ends
`kWarning` + `kIterationLimit`. -/
theorem runSimplex_limit_hit (m : LpModel) (o : Options) (w : Bool)
    (h0 : ¬o.simplex_iteration_limit = 0)
    (hgt : o.simplex_iteration_limit <
      (if w && o.use_warm_start then 0
       else m.facts.simplexIterations o.simplex_strategy)) :
    (Highs.runSimplex m o w false).model_status =
      HighsModelStatus.kIterationLimit ∧
    (Highs.runSimplex m o w false).status = HighsStatus.kWarning ∧
    (Highs.runSimplex m o w false).info =
      mkInfo o.simplex_iteration_limit 0 0
        (m.facts.optimalObjective m.sense) := by
  unfold Highs.runSimplex
  dsimp only
  simp only [Bool.false_eq_true, if_false, if_neg h0, if_neg (not_le.mpr hgt)]
  refine ⟨?_, ?_, ?_⟩ <;> trivial

/-- A simplex run with a sufficient budget and a tripping dual-objective
bound: `kObjectiveBound` with call status `kOk`. -/
theorem runSimplex_bound_trip (m : LpModel) (o : Options) (w : Bool)
    (h0 : ¬o.simplex_iteration_limit = 0)
    (hle : (if w && o.use_warm_start then 0
            else m.facts.simplexIterations o.simplex_strategy) ≤
      o.simplex_iteration_limit)
    (htrip : objectiveBoundTrips m o = true) :
    (Highs.runSimplex m o w false).model_status =
      HighsModelStatus.kObjectiveBound ∧
    (Highs.runSimplex m o w false).status = HighsStatus.kOk := by
  unfold Highs.runSimplex
  dsimp only
  simp only [Bool.false_eq_true, if_false, if_neg h0, if_pos hle, htrip,
    if_true]
  refine ⟨?_, ?_⟩ <;> trivial

/-- A simplex run with a sufficient budget and no bound trip: `kOptimal`
with call status `kOk`, spending exactly the needed iterations. -/
theorem runSimplex_optimal_run (m : LpModel) (o : Options) (w : Bool)
    (h0 : ¬o.simplex_iteration_limit = 0)
    (hle : (if w && o.use_warm_start then 0
            else m.facts.simplexIterations o.simplex_strategy) ≤
      o.simplex_iteration_limit)
    (htrip : objectiveBoundTrips m o = false) :
    (Highs.runSimplex m o w false).model_status =
      HighsModelStatus.kOptimal ∧
    (Highs.runSimplex m o w false).status = HighsStatus.kOk ∧
    (Highs.runSimplex m o w false).info =
      mkInfo (if w && o.use_warm_start then 0
              else m.facts.simplexIterations o.simplex_strategy) 0 0
        (m.facts.optimalObjective m.sense) := by
  unfold Highs.runSimplex
  dsimp only
  simp only [Bool.false_eq_true, if_false, if_neg h0, if_pos hle, htrip]
  refine ⟨?_, ?_, ?_⟩ <;> trivial

/-- An IPM run under a zero iteration limit: zero IPM iterations,
`kWarning` + `kIterationLimit`. -/
theorem runIpm_limit_zero (m : LpModel) (o : Options)
    (h0 : o.ipm_iteration_limit = 0) :
    (Highs.runIpm m o false).model_status =
      HighsModelStatus.kIterationLimit ∧
    (Highs.runIpm m o false).status = HighsStatus.kWarning ∧
    (Highs.runIpm m o false).info =
      mkInfo 0 0 0 (m.facts.optimalObjective m.sense) := by
  unfold Highs.runIpm
  dsimp only
  simp only [Bool.false_eq_true, if_false, if_pos h0]
  refine ⟨?_, ?_, ?_⟩ <;> trivial

/-- An IPM run whose positive iteration budget is smaller than the IPM
iterations needed: at most the budget is spent and the run ends
`kWarning` + `kIterationLimit`. -/
theorem runIpm_limit_hit (m : LpModel) (o : Options)
    (h0 : ¬o.ipm_iteration_limit = 0)
    (hgt : o.ipm_iteration_limit < m.facts.ipmIterations) :
    (Highs.runIpm m o false).model_status =
      HighsModelStatus.kIterationLimit ∧
    (Highs.runIpm m o false).status = HighsStatus.kWarning ∧
    (Highs.runIpm m o false).info =
      mkInfo 0 o.ipm_iteration_limit m.facts.crossoverIterations
        (m.facts.optimalObjective m.sense) := by
  unfold Highs.runIpm
  dsimp only
  simp only [Bool.false_eq_true, if_false, if_neg h0, if_neg (not_le.mpr hgt)]
  refine ⟨?_, ?_, ?_⟩ <;> trivial

/-- An IPM run with a sufficient budget: `kOptimal` with call status `kOk`,
reporting the instance's IPM and crossover iteration counts. -/
theorem runIpm_optimal_run (m : LpModel) (o : Options)
    (h0 : ¬o.ipm_iteration_limit = 0)
    (hle : m.facts.ipmIterations ≤ o.ipm_iteration_limit) :
    (Highs.runIpm m o false).model_status = HighsModelStatus.kOptimal ∧
    (Highs.runIpm m o false).status = HighsStatus.kOk ∧
    (Highs.runIpm m o false).info =
      mkInfo 0 m.facts.ipmIterations m.facts.crossoverIterations
        (m.facts.optimalObjective m.sense) := by
  unfold Highs.runIpm
  dsimp only
  simp only [Bool.false_eq_true, if_false, if_neg h0, if_pos hle]
  refine ⟨?_, ?_, ?_⟩ <;> trivial

/-- `run` with a non-`ipm` solver option is the simplex engine. -/
theorem run_eq_runSimplex (m : LpModel) (o : Options) (w t : Bool)
    (h : ¬o.solver = SolverChoice.ipm) :
    Highs.run m o w t = Highs.runSimplex m o w t := by
  unfold Highs.run
  cases hs : o.solver
  · rfl
  · exact absurd hs h
  · rfl

/-- `run` with the `ipm` solver option is the IPM + crossover engine. -/
theorem run_eq_runIpm (m : LpModel) (o : Options) (w t : Bool)
    (h : o.solver = SolverChoice.ipm) :
    Highs.run m o w t = Highs.runIpm m o t := by
  unfold Highs.run
  rw [h]

/-- Claim C1: after any `run()` that succeeds (returns `Optimal`), the
reported `LpInfo` fields `max_complementarity_violation` and
`sum_complementarity_violations` are both exactly 0 — bit-exact equality —
for both the simplex engine and the IPM + crossover engine (every solver
option, warm state and time oracle). -/
theorem complementarity_zero_after_optimal_run (m : LpModel) (o : Options)
    (w t : Bool)
    (h : (Highs.run m o w t).model_status = HighsModelStatus.kOptimal) :
    (Highs.run m o w t).info.max_complementarity_violation = 0 ∧
    (Highs.run m o w t).info.sum_complementarity_violations = 0 :=
  ⟨run_max_comp_zero m o w t, run_sum_comp_zero m o w t⟩

/-- Witness for C1 at a concrete optimal simplex run. -/
theorem complementarity_zero_after_optimal_run_witness :
    (Highs.run sampleModel wOptsSimplexBig false false).model_status =
      HighsModelStatus.kOptimal ∧
    ((Highs.run sampleModel wOptsSimplexBig false false).info.max_complementarity_violation = 0 ∧
     (Highs.run sampleModel wOptsSimplexBig false false).info.sum_complementarity_violations = 0) :=
  ⟨by decide,
   complementarity_zero_after_optimal_run sampleModel wOptsSimplexBig false
     false (by decide)⟩

/-- Claim C6: for every successful minimization run, the value v returned by
`getDualObjectiveValue` and the primal objective p reported as
`objective_function_value` satisfy `|p − v| / max(1, |p|) < 1e-12`. -/
theorem dual_objective_gap_within_tolerance (m : LpModel) (o : Options)
    (w t : Bool) (hsense : m.sense = ObjSense.kMinimize)
    (h : (Highs.run m o w t).model_status = HighsModelStatus.kOptimal) :
    ∃ v, Highs.getDualObjectiveValue (Highs.run m o w t) = some v ∧
      relError v (Highs.run m o w t).info.objective_function_value <
        1 / 10 ^ 12 := by
  refine ⟨(Highs.run m o w t).info.objective_function_value, ?_, ?_⟩
  · unfold Highs.getDualObjectiveValue
    rw [if_pos h]
  · unfold relError
    rw [sub_self, abs_zero, zero_div]
    norm_num

/-- Witness for C6 at a concrete optimal minimization run. -/
theorem dual_objective_gap_within_tolerance_witness :
    sampleModel.sense = ObjSense.kMinimize ∧
    (Highs.run sampleModel wOptsSimplexBig false false).model_status =
      HighsModelStatus.kOptimal ∧
    ∃ v, Highs.getDualObjectiveValue
        (Highs.run sampleModel wOptsSimplexBig false false) = some v ∧
      relError v (Highs.run sampleModel wOptsSimplexBig false
        false).info.objective_function_value < 1 / 10 ^ 12 :=
  ⟨rfl, by decide,
   dual_objective_gap_within_tolerance sampleModel wOptsSimplexBig false false
     rfl (by decide)⟩

/-- Claim C8: the standard-form LP produced by the two-call
`getStandardFormLp` export solves to an objective equal, up to sign for
maximization, to the `objective_function_value` of the original LP, with
relative error below 1e-10 (in the model the values agree exactly). -/
theorem standard_form_objective_agrees (m : LpModel) (o : Options)
    (w t : Bool)
    (h : (Highs.run m o w t).model_status = HighsModelStatus.kOptimal) :
    relError (senseSign m.sense * Highs.standardFormObjective m)
      (Highs.run m o w t).info.objective_function_value < 1 / 10 ^ 10 := by
  rw [run_objective_value]
  unfold Highs.standardFormObjective relError
  obtain ⟨sense, facts⟩ := m
  cases sense <;> simp [senseSign]

/-- Witness for C8 at a concrete optimal run. -/
theorem standard_form_objective_agrees_witness :
    (Highs.run sampleModel wOptsSimplexBig false false).model_status =
      HighsModelStatus.kOptimal ∧
    relError (senseSign sampleModel.sense *
        Highs.standardFormObjective sampleModel)
      (Highs.run sampleModel wOptsSimplexBig false
        false).info.objective_function_value < 1 / 10 ^ 10 :=
  ⟨by decide,
   standard_form_objective_agrees sampleModel wOptsSimplexBig false false
     (by decide)⟩

/-- Claim C9 counterexample: the default value of the simplex
iteration-limit option in `src/src/lp_data/HighsLp.h`
(`iterationLimitSimplex = 999999`) is not at least 10^6. -/
theorem simplex_iteration_limit_default_below_million :
    ¬(10 : Int) ^ 6 ≤ defaultHighsOptions.iterationLimitSimplex := by
  decide

/-- Claim C9 (amended): the default value of the simplex iteration-limit
option, before any `setOptionValue` call, is 999999 — at least 10^6 − 1 but
strictly below 10^6. -/
theorem simplex_iteration_limit_default_value :
    defaultHighsOptions.iterationLimitSimplex = 999999 ∧
    (10 : Int) ^ 6 - 1 ≤ defaultHighsOptions.iterationLimitSimplex ∧
    defaultHighsOptions.iterationLimitSimplex < (10 : Int) ^ 6 := by
  refine ⟨rfl, by decide, by decide⟩

/-- Claim C4: for either engine, a zero iteration limit means zero
iterations of that engine and a `kWarning` return with
`kIterationLimit`; a positive budget k smaller than what the optimum
needs is spent exactly by the simplex engine (and at most k iterations by
the IPM engine) before returning `kIterationLimit`. -/
theorem iteration_limit_behaviour (m : LpModel) (o : Options) :
    (o.solver = SolverChoice.simplex → o.simplex_iteration_limit = 0 →
      (Highs.run m o false false).status = HighsStatus.kWarning ∧
      (Highs.run m o false false).model_status =
        HighsModelStatus.kIterationLimit ∧
      (Highs.run m o false false).info.simplex_iteration_count = 0) ∧
    (o.solver = SolverChoice.ipm → o.ipm_iteration_limit = 0 →
      (Highs.run m o false false).status = HighsStatus.kWarning ∧
      (Highs.run m o false false).model_status =
        HighsModelStatus.kIterationLimit ∧
      (Highs.run m o false false).info.ipm_iteration_count = 0) ∧
    (o.solver = SolverChoice.simplex → 0 < o.simplex_iteration_limit →
      o.simplex_iteration_limit <
        m.facts.simplexIterations o.simplex_strategy →
      (Highs.run m o false false).status = HighsStatus.kWarning ∧
      (Highs.run m o false false).model_status =
        HighsModelStatus.kIterationLimit ∧
      (Highs.run m o false false).info.simplex_iteration_count =
        o.simplex_iteration_limit) ∧
    (o.solver = SolverChoice.ipm → 0 < o.ipm_iteration_limit →
      o.ipm_iteration_limit < m.facts.ipmIterations →
      (Highs.run m o false false).status = HighsStatus.kWarning ∧
      (Highs.run m o false false).model_status =
        HighsModelStatus.kIterationLimit ∧
      (Highs.run m o false false).info.ipm_iteration_count ≤
        o.ipm_iteration_limit) := by
  refine ⟨?_, ?_, ?_, ?_⟩
  · intro hs h0
    rw [run_eq_runSimplex m o false false (by rw [hs]; decide)]
    obtain ⟨h1, h2, h3⟩ := runSimplex_limit_zero m o false h0
    exact ⟨h2, h1, by rw [h3]; rfl⟩
  · intro hs h0
    rw [run_eq_runIpm m o false false hs]
    obtain ⟨h1, h2, h3⟩ := runIpm_limit_zero m o h0
    exact ⟨h2, h1, by rw [h3]; rfl⟩
  · intro hs hpos hlt
    rw [run_eq_runSimplex m o false false (by rw [hs]; decide)]
    have h0 : ¬o.simplex_iteration_limit = 0 := Nat.pos_iff_ne_zero.mp hpos
    have hgt : o.simplex_iteration_limit <
        (if false && o.use_warm_start then 0
         else m.facts.simplexIterations o.simplex_strategy) := by
      simpa using hlt
    obtain ⟨h1, h2, h3⟩ := runSimplex_limit_hit m o false h0 hgt
    exact ⟨h2, h1, by rw [h3]; rfl⟩
  · intro hs hpos hlt
    rw [run_eq_runIpm m o false false hs]
    have h0 : ¬o.ipm_iteration_limit = 0 := Nat.pos_iff_ne_zero.mp hpos
    obtain ⟨h1, h2, h3⟩ := runIpm_limit_hit m o h0 hlt
    exact ⟨h2, h1, by rw [h3]; exact le_rfl⟩

/-- Witness for C4 at concrete runs: simplex and IPM with limit 0, and with
limit 2 against instances needing 5 simplex / 4 IPM iterations. -/
theorem iteration_limit_behaviour_witness :
    ((Highs.run sampleModel wOptsSimplexLim0 false false).status =
        HighsStatus.kWarning ∧
      (Highs.run sampleModel wOptsSimplexLim0 false false).model_status =
        HighsModelStatus.kIterationLimit ∧
      (Highs.run sampleModel wOptsSimplexLim0 false
        false).info.simplex_iteration_count = 0) ∧
    ((Highs.run sampleModel wOptsIpmLim0 false false).status =
        HighsStatus.kWarning ∧
      (Highs.run sampleModel wOptsIpmLim0 false false).model_status =
        HighsModelStatus.kIterationLimit ∧
      (Highs.run sampleModel wOptsIpmLim0 false
        false).info.ipm_iteration_count = 0) ∧
    ((Highs.run sampleModel wOptsSimplexLim2 false false).status =
        HighsStatus.kWarning ∧
      (Highs.run sampleModel wOptsSimplexLim2 false false).model_status =
        HighsModelStatus.kIterationLimit ∧
      (Highs.run sampleModel wOptsSimplexLim2 false
        false).info.simplex_iteration_count = 2) ∧
    ((Highs.run sampleModel wOptsIpmLim2 false false).status =
        HighsStatus.kWarning ∧
      (Highs.run sampleModel wOptsIpmLim2 false false).model_status =
        HighsModelStatus.kIterationLimit ∧
      (Highs.run sampleModel wOptsIpmLim2 false
        false).info.ipm_iteration_count ≤ 2) :=
  ⟨(iteration_limit_behaviour sampleModel wOptsSimplexLim0).1 rfl rfl,
   (iteration_limit_behaviour sampleModel wOptsIpmLim0).2.1 rfl rfl,
   (iteration_limit_behaviour sampleModel wOptsSimplexLim2).2.2.1 rfl
     (by decide) (by decide),
   (iteration_limit_behaviour sampleModel wOptsIpmLim2).2.2.2 rfl
     (by decide) (by decide)⟩

/-- Claim C5 counterexample: a concrete minimization run that terminates
early with `kObjectiveBound` returns call status `kOk`, not `kWarning` —
matching the tested behaviour (`dual-objective-upper-bound` REQUIREs `kOk`
together with `kObjectiveBound`) and refuting the claim that every
limit-induced early termination returns `Warning`. -/
theorem objective_bound_status_ok_counterexample :
    (Highs.run sampleModel wOptsSimplexBound false false).model_status =
      HighsModelStatus.kObjectiveBound ∧
    ¬(Highs.run sampleModel wOptsSimplexBound false false).status =
      HighsStatus.kWarning ∧
    (Highs.run sampleModel wOptsSimplexBound false false).status =
      HighsStatus.kOk := by
  decide

/-- Claim C5 (amended): whenever `run()` terminates early because a limit
was reached, it never returns `kError`; `kTimeLimit` and `kIterationLimit`
return `kWarning` while `kObjectiveBound` returns `kOk`; in every case the
caller still receives a consistent Basis and Solution reflecting the last
valid iterate. -/
theorem limit_statuses_and_consistency (m : LpModel) (o : Options)
    (w t : Bool)
    (h : (Highs.run m o w t).model_status = HighsModelStatus.kTimeLimit ∨
      (Highs.run m o w t).model_status = HighsModelStatus.kIterationLimit ∨
      (Highs.run m o w t).model_status = HighsModelStatus.kObjectiveBound) :
    (Highs.run m o w t).status =
      (if (Highs.run m o w t).model_status = HighsModelStatus.kObjectiveBound
       then HighsStatus.kOk else HighsStatus.kWarning) ∧
    ¬(Highs.run m o w t).status = HighsStatus.kError ∧
    (Highs.run m o w t).basisConsistent = true ∧
    (Highs.run m o w t).solutionConsistent = true := by
  revert h
  unfold Highs.run Highs.runSimplex Highs.runIpm
  dsimp only
  split <;> (repeat' split) <;> intro h <;> simp_all

/-- Witness for C5 (amended) at a concrete iteration-limited run. -/
theorem limit_statuses_and_consistency_witness :
    ((Highs.run sampleModel wOptsSimplexLim0 false false).model_status =
      HighsModelStatus.kIterationLimit) ∧
    ((Highs.run sampleModel wOptsSimplexLim0 false false).status =
      (if (Highs.run sampleModel wOptsSimplexLim0 false false).model_status =
          HighsModelStatus.kObjectiveBound
       then HighsStatus.kOk else HighsStatus.kWarning) ∧
    ¬(Highs.run sampleModel wOptsSimplexLim0 false false).status =
      HighsStatus.kError ∧
    (Highs.run sampleModel wOptsSimplexLim0 false false).basisConsistent =
      true ∧
    (Highs.run sampleModel wOptsSimplexLim0 false
      false).solutionConsistent = true) :=
  ⟨by decide,
   limit_statuses_and_consistency sampleModel wOptsSimplexLim0 false false
     (Or.inr (Or.inl (by decide)))⟩

/-- On the minimization e226 model an active bound b trips exactly when
`b < −11.6389290663705`. -/
theorem e226_trip_min (its : SimplexStrategy → Nat) (ipmIts crossIts : Nat)
    (b : Rat) (hb : b < e226OptimalObjective ObjSense.kMinimize) :
    objectiveBoundTrips (e226Min its ipmIts crossIts)
      (e226Options (some b)) = true := by
  unfold objectiveBoundTrips e226Min e226Facts e226Options
  exact decide_eq_true hb

/-- On the maximization e226 model no bound ever trips. -/
theorem e226_trip_max (its : SimplexStrategy → Nat) (ipmIts crossIts : Nat)
    (b : Rat) :
    objectiveBoundTrips (e226Max its ipmIts crossIts)
      (e226Options (some b)) = false := by
  unfold objectiveBoundTrips e226Max e226Facts e226Options
  rfl

/-- Claim C3: for the e226 LP (minimization, solver simplex, presolve off),
`run()` returns `kObjectiveBound` with `objective_bound = −45.876` (crossed
during Phase 2) and with `objective_bound = −110.0` (already violated at the
Phase-2 entry); after flipping the sense to maximization with
`objective_bound = 150.0` the bound is ignored and `run()` returns
`kOptimal` with objective `111.650960689315` within relative error 1e-10.
The e226 simplex iteration counts are not pinned by the spec and enter as
the parameter `its`, assumed within the default budget. -/
theorem e226_objective_bound_scenarios (its : SimplexStrategy → Nat)
    (ipmIts crossIts : Nat)
    (h : its SimplexStrategy.kSimplexStrategyChoose ≤ 999999) :
    (Highs.run (e226Min its ipmIts crossIts)
      (e226Options (some e226BoundLarger)) false false).model_status =
      HighsModelStatus.kObjectiveBound ∧
    (Highs.run (e226Min its ipmIts crossIts)
      (e226Options (some e226BoundSmaller)) false false).model_status =
      HighsModelStatus.kObjectiveBound ∧
    (Highs.run (e226Max its ipmIts crossIts)
      (e226Options (some e226MaxBound)) false false).model_status =
      HighsModelStatus.kOptimal ∧
    |((Highs.run (e226Max its ipmIts crossIts)
        (e226Options (some e226MaxBound)) false
        false).info.objective_function_value - e226MaxObjective) /
      e226MaxObjective| < 1 / 10 ^ 10 := by
  have hle1 : (if false && (e226Options (some e226BoundLarger)).use_warm_start
      then 0
      else (e226Min its ipmIts crossIts).facts.simplexIterations
        (e226Options (some e226BoundLarger)).simplex_strategy) ≤
      (e226Options (some e226BoundLarger)).simplex_iteration_limit := by
    simpa [e226Options, e226Min, e226Facts] using h
  have hle2 : (if false && (e226Options (some e226BoundSmaller)).use_warm_start
      then 0
      else (e226Min its ipmIts crossIts).facts.simplexIterations
        (e226Options (some e226BoundSmaller)).simplex_strategy) ≤
      (e226Options (some e226BoundSmaller)).simplex_iteration_limit := by
    simpa [e226Options, e226Min, e226Facts] using h
  have hle3 : (if false && (e226Options (some e226MaxBound)).use_warm_start
      then 0
      else (e226Max its ipmIts crossIts).facts.simplexIterations
        (e226Options (some e226MaxBound)).simplex_strategy) ≤
      (e226Options (some e226MaxBound)).simplex_iteration_limit := by
    simpa [e226Options, e226Max, e226Facts] using h
  refine ⟨?_, ?_, ?_, ?_⟩
  · rw [run_eq_runSimplex _ _ _ _ (by decide)]
    exact (runSimplex_bound_trip _ _ _ (by decide) hle1
      (e226_trip_min its ipmIts crossIts e226BoundLarger
        (by norm_num [e226BoundLarger, e226OptimalObjective]))).1
  · rw [run_eq_runSimplex _ _ _ _ (by decide)]
    exact (runSimplex_bound_trip _ _ _ (by decide) hle2
      (e226_trip_min its ipmIts crossIts e226BoundSmaller
        (by norm_num [e226BoundSmaller, e226OptimalObjective]))).1
  · rw [run_eq_runSimplex _ _ _ _ (by decide)]
    exact (runSimplex_optimal_run _ _ _ (by decide) hle3
      (e226_trip_max its ipmIts crossIts e226MaxBound)).1
  · rw [run_eq_runSimplex _ _ _ _ (by decide)]
    have h3 := (runSimplex_optimal_run _ _ _ (by decide) hle3
      (e226_trip_max its ipmIts crossIts e226MaxBound)).2.2
    rw [h3]
    norm_num [mkInfo, e226Max, e226Facts, e226OptimalObjective,
      e226MaxObjective]

/-- Witness for C3 with concrete iteration counts within the budget. -/
theorem e226_objective_bound_scenarios_witness :
    ((fun _ => 100 : SimplexStrategy → Nat)
      SimplexStrategy.kSimplexStrategyChoose ≤ 999999) ∧
    ((Highs.run (e226Min (fun _ => 100) 0 0)
      (e226Options (some e226BoundLarger)) false false).model_status =
      HighsModelStatus.kObjectiveBound ∧
    (Highs.run (e226Min (fun _ => 100) 0 0)
      (e226Options (some e226BoundSmaller)) false false).model_status =
      HighsModelStatus.kObjectiveBound ∧
    (Highs.run (e226Max (fun _ => 100) 0 0)
      (e226Options (some e226MaxBound)) false false).model_status =
      HighsModelStatus.kOptimal ∧
    |((Highs.run (e226Max (fun _ => 100) 0 0)
        (e226Options (some e226MaxBound)) false
        false).info.objective_function_value - e226MaxObjective) /
      e226MaxObjective| < 1 / 10 ^ 10) :=
  ⟨by decide,
   e226_objective_bound_scenarios (fun _ => 100) 0 0 (by decide)⟩

/-- Claim C7: solving the adlittle model yields `kOptimal` with exactly the
reproducible iteration counts — simplex 87 for `DualPlain`, 72 for
`DualTasks`, 73 for `DualMulti`, 94 for `Primal`, 87 for `Choose`; and with
the IPM solver, 13 IPM iterations and 2 crossover iterations.  The adlittle
optimal objective value is not pinned by the spec and enters as the
parameter `obj`. -/
theorem adlittle_iteration_counts (obj : ObjSense → Rat) :
    (Highs.run (adlittleModel obj)
      (adlittleOptions SimplexStrategy.kSimplexStrategyDualPlain) false
      false).model_status = HighsModelStatus.kOptimal ∧
    (Highs.run (adlittleModel obj)
      (adlittleOptions SimplexStrategy.kSimplexStrategyDualPlain) false
      false).info.simplex_iteration_count = 87 ∧
    (Highs.run (adlittleModel obj)
      (adlittleOptions SimplexStrategy.kSimplexStrategyDualTasks) false
      false).info.simplex_iteration_count = 72 ∧
    (Highs.run (adlittleModel obj)
      (adlittleOptions SimplexStrategy.kSimplexStrategyDualMulti) false
      false).info.simplex_iteration_count = 73 ∧
    (Highs.run (adlittleModel obj)
      (adlittleOptions SimplexStrategy.kSimplexStrategyPrimal) false
      false).info.simplex_iteration_count = 94 ∧
    (Highs.run (adlittleModel obj)
      (adlittleOptions SimplexStrategy.kSimplexStrategyChoose) false
      false).info.simplex_iteration_count = 87 ∧
    (Highs.run (adlittleModel obj) (sampleIpmOptions 999999) false
      false).model_status = HighsModelStatus.kOptimal ∧
    (Highs.run (adlittleModel obj) (sampleIpmOptions 999999) false
      false).info.ipm_iteration_count = 13 ∧
    (Highs.run (adlittleModel obj) (sampleIpmOptions 999999) false
      false).info.crossover_iteration_count = 2 := by
  refine ⟨rfl, rfl, rfl, rfl, rfl, rfl, rfl, rfl, rfl⟩

/-- Claim C2: with `use_warm_start = true`, calling `run()` on a Model
immediately after a prior run that returned `kOptimal` performs zero simplex
iterations and returns `kOptimal` (with call status `kOk`); the warm state
handed to the second call is the optimal basis installed by the first. -/
theorem warm_start_rerun_zero_iterations (m : LpModel) (o : Options)
    (t : Bool) (hw : o.use_warm_start = true)
    (h : (Highs.run m o false t).model_status = HighsModelStatus.kOptimal) :
    (Highs.run m o (Highs.run m o false t).optimalBasisAfter
      false).model_status = HighsModelStatus.kOptimal ∧
    (Highs.run m o (Highs.run m o false t).optimalBasisAfter
      false).status = HighsStatus.kOk ∧
    (Highs.run m o (Highs.run m o false t).optimalBasisAfter
      false).info.simplex_iteration_count = 0 := by
  have hbasis := run_optimalBasisAfter m o false t h
  rw [hbasis]
  by_cases hs : o.solver = SolverChoice.ipm
  · rw [run_eq_runIpm m o false t hs] at h
    rw [run_eq_runIpm m o true false hs]
    rw [runIpm_optimal_iff] at h
    obtain ⟨-, h0, hle⟩ := h
    obtain ⟨h1, h2, h3⟩ := runIpm_optimal_run m o h0 hle
    exact ⟨h1, h2, by rw [h3]; rfl⟩
  · rw [run_eq_runSimplex m o false t hs] at h
    rw [run_eq_runSimplex m o true false hs]
    rw [runSimplex_optimal_iff] at h
    obtain ⟨-, h0, -, htrip⟩ := h
    have hle : (if true && o.use_warm_start then 0
        else m.facts.simplexIterations o.simplex_strategy) ≤
        o.simplex_iteration_limit := by
      rw [hw]
      exact Nat.zero_le _
    obtain ⟨h1, h2, h3⟩ := runSimplex_optimal_run m o true h0 hle htrip
    refine ⟨h1, h2, ?_⟩
    rw [h3, hw]
    rfl

/-- Witness for C2 at a concrete first run ending `kOptimal`. -/
theorem warm_start_rerun_zero_iterations_witness :
    wOptsSimplexBig.use_warm_start = true ∧
    (Highs.run sampleModel wOptsSimplexBig false false).model_status =
      HighsModelStatus.kOptimal ∧
    ((Highs.run sampleModel wOptsSimplexBig
        (Highs.run sampleModel wOptsSimplexBig false
          false).optimalBasisAfter false).model_status =
      HighsModelStatus.kOptimal ∧
    (Highs.run sampleModel wOptsSimplexBig
        (Highs.run sampleModel wOptsSimplexBig false
          false).optimalBasisAfter false).status = HighsStatus.kOk ∧
    (Highs.run sampleModel wOptsSimplexBig
        (Highs.run sampleModel wOptsSimplexBig false
          false).optimalBasisAfter
        false).info.simplex_iteration_count = 0) :=
  ⟨rfl, by decide,
   warm_start_rerun_zero_iterations sampleModel wOptsSimplexBig false rfl
     (by decide)⟩

/-- Claim C10: after a `run()` in which presolve fully disposes of the LP
(the adlittle default-presolve scenario), `getSimplexStats()` reports
`valid`, `iteration_count = 0`, `num_invert = 1`, positive
`last_invert_num_el` and `last_factored_basis_num_el`, and all four density
estimates exactly 0; after `clearSolver()` (a cold restart) and a re-run
with presolve off, `iteration_count`, `num_invert` and all four density
estimates are strictly positive. -/
theorem simplex_stats_presolve_and_cold (m : LpModel) (o : Options)
    (hsolver : ¬o.solver = SolverChoice.ipm)
    (hpre : o.presolve = PresolveChoice.choose)
    (hps : m.facts.presolveSolves = true)
    (hiel : 0 < m.facts.lastInvertNumEl)
    (hfel : 0 < m.facts.lastFactoredBasisNumEl)
    (hits : 0 < m.facts.simplexIterations o.simplex_strategy)
    (hinv : 0 < m.facts.numInvertCold)
    (hca : 0 < m.facts.colAqDensity)
    (hre : 0 < m.facts.rowEpDensity)
    (hra : 0 < m.facts.rowApDensity)
    (hrd : 0 < m.facts.rowDSEDensity) :
    ((Highs.run m o false false).stats.valid = true ∧
     (Highs.run m o false false).stats.iteration_count = 0 ∧
     (Highs.run m o false false).stats.num_invert = 1 ∧
     0 < (Highs.run m o false false).stats.last_invert_num_el ∧
     0 < (Highs.run m o false false).stats.last_factored_basis_num_el ∧
     (Highs.run m o false false).stats.col_aq_density = 0 ∧
     (Highs.run m o false false).stats.row_ep_density = 0 ∧
     (Highs.run m o false false).stats.row_ap_density = 0 ∧
     (Highs.run m o false false).stats.row_DSE_density = 0) ∧
    ((Highs.run m { o with presolve := PresolveChoice.off } false
        false).stats.valid = true ∧
     0 < (Highs.run m { o with presolve := PresolveChoice.off } false
        false).stats.iteration_count ∧
     0 < (Highs.run m { o with presolve := PresolveChoice.off } false
        false).stats.num_invert ∧
     0 < (Highs.run m { o with presolve := PresolveChoice.off } false
        false).stats.col_aq_density ∧
     0 < (Highs.run m { o with presolve := PresolveChoice.off } false
        false).stats.row_ep_density ∧
     0 < (Highs.run m { o with presolve := PresolveChoice.off } false
        false).stats.row_ap_density ∧
     0 < (Highs.run m { o with presolve := PresolveChoice.off } false
        false).stats.row_DSE_density) := by
  constructor
  · rw [run_eq_runSimplex m o false false hsolver, runSimplex_stats]
    rw [if_neg (by rw [hpre]; decide), if_pos hps]
    exact ⟨rfl, rfl, rfl, hiel, hfel, rfl, rfl, rfl, rfl⟩
  · rw [run_eq_runSimplex m { o with presolve := PresolveChoice.off } false
      false (by simpa using hsolver), runSimplex_stats]
    rw [if_pos rfl]
    refine ⟨rfl, ?_, hinv, hca, hre, hra, hrd⟩
    simpa using hits

/-- Witness for C10 at the concrete sample instance (presolve disposes of
it; all cold counters and densities positive). -/
theorem simplex_stats_presolve_and_cold_witness :
    (¬wOptsSimplexBig.solver = SolverChoice.ipm ∧
     wOptsSimplexBig.presolve = PresolveChoice.choose ∧
     sampleModel.facts.presolveSolves = true) ∧
    (((Highs.run sampleModel wOptsSimplexBig false false).stats.valid = true ∧
      (Highs.run sampleModel wOptsSimplexBig false
        false).stats.iteration_count = 0 ∧
      (Highs.run sampleModel wOptsSimplexBig false false).stats.num_invert =
        1 ∧
      0 < (Highs.run sampleModel wOptsSimplexBig false
        false).stats.last_invert_num_el ∧
      0 < (Highs.run sampleModel wOptsSimplexBig false
        false).stats.last_factored_basis_num_el ∧
      (Highs.run sampleModel wOptsSimplexBig false
        false).stats.col_aq_density = 0 ∧
      (Highs.run sampleModel wOptsSimplexBig false
        false).stats.row_ep_density = 0 ∧
      (Highs.run sampleModel wOptsSimplexBig false
        false).stats.row_ap_density = 0 ∧
      (Highs.run sampleModel wOptsSimplexBig false
        false).stats.row_DSE_density = 0) ∧
     ((Highs.run sampleModel
        { wOptsSimplexBig with presolve := PresolveChoice.off } false
        false).stats.valid = true ∧
      0 < (Highs.run sampleModel
        { wOptsSimplexBig with presolve := PresolveChoice.off } false
        false).stats.iteration_count ∧
      0 < (Highs.run sampleModel
        { wOptsSimplexBig with presolve := PresolveChoice.off } false
        false).stats.num_invert ∧
      0 < (Highs.run sampleModel
        { wOptsSimplexBig with presolve := PresolveChoice.off } false
        false).stats.col_aq_density ∧
      0 < (Highs.run sampleModel
        { wOptsSimplexBig with presolve := PresolveChoice.off } false
        false).stats.row_ep_density ∧
      0 < (Highs.run sampleModel
        { wOptsSimplexBig with presolve := PresolveChoice.off } false
        false).stats.row_ap_density ∧
      0 < (Highs.run sampleModel
        { wOptsSimplexBig with presolve := PresolveChoice.off } false
        false).stats.row_DSE_density)) :=
  ⟨⟨by decide, rfl, rfl⟩,
   simplex_stats_presolve_and_cold sampleModel wOptsSimplexBig (by decide)
     rfl rfl (by decide) (by decide) (by decide) (by decide)
     (by norm_num [sampleModel, sampleFacts])
     (by norm_num [sampleModel, sampleFacts])
     (by norm_num [sampleModel, sampleFacts])
     (by norm_num [sampleModel, sampleFacts])⟩
